import Mathlib

/-!
Shallow embedding of the Postforge caption-generation pipeline
(`generateInstagramCaptions`, `generateCombinedPost`, `processBatch` and the
inline batch planner from the AI service module).

External effects are modelled by oracles:
 - image resolution (`imageUrlToBase64` / `fetchImageAsBase64`) is an oracle
   from the image locator string to a resolved image or a failure;
 - the generation client (`anthropic.messages.create`) is an oracle from the
   batch index, the built request content and the attempt number to a raw-text
   success or an error carrying an HTTP status;
 - JSON parsing of the model's raw text is an oracle from the text to the
   parsed shape (parse error / parsed object with optional fields).

Machine integers are modelled as `Nat`; the only numeric comparison involving
JavaScript floats is the 5MB admission check
`base64Data.length * 0.75 / (1024*1024) > 5`, which is exact in binary
floating point for all realistic lengths and is embedded as the equivalent
integer comparison `5 * (1024*1024) * 4 < len * 3`.
-/

namespace Postforge

/-- An email row as produced by `fetchEmailsWithImagesForDateRange`:
`{id, sender, subject, textContent, imageUrls, receivedAt}` (the fields the
pipeline reads).  `subject`, `sender`, `textContent` may be absent (JS
`undefined`/`null`), hence `Option`. -/
structure Email where
  id : String
  subject : Option String
  sender : Option String
  textContent : Option String
  imageUrls : List String
deriving DecidableEq, Repr

/-- One flattened image+context tuple, as pushed onto `allImages` in
`generateInstagramCaptions` (and as the elements of `images` passed to
`generateCombinedPost`). -/
structure ImageRef where
  imageUrl : String
  emailId : String
  subject : Option String
  sender : Option String
  textContent : Option String
deriving DecidableEq, Repr

/-- `emails.forEach(email => email.imageUrls.forEach(imageUrl =>
allImages.push({imageUrl, emailId: email.id, subject, sender, textContent})))`. -/
def flattenImages (emails : List Email) : List ImageRef :=
  emails.flatMap (fun email => email.imageUrls.map (fun imageUrl =>
    { imageUrl := imageUrl
      emailId := email.id
      subject := email.subject
      sender := email.sender
      textContent := email.textContent }))

/-! ## Batch planner (inline in `generateInstagramCaptions`, lines 56-110) -/

def MAX_BATCH_SIZE_MB : Nat := 30

def ESTIMATED_IMAGE_SIZE_KB : Nat := 500

def maxBatchSizeKB : Nat := MAX_BATCH_SIZE_MB * 1024

/-- The greedy batching loop.  State: produced `batches`, the `currentBatch`
and the running `currentBatchSizeKB` estimate.  For each image: if
`currentBatchSizeKB + ESTIMATED_IMAGE_SIZE_KB > maxBatchSizeKB` and
`currentBatch.length > 0`, close the current batch and reset the estimate;
then push the image and add the per-item estimate.  At the end a non-empty
current batch is closed.  `w` is the per-item estimate, `C` the ceiling. -/
def planBatchesAux (w C : Nat) : List α → List (List α) → List α → Nat → List (List α)
  | [], batches, cur, _ =>
      if 0 < cur.length then batches ++ [cur] else batches
  | img :: rest, batches, cur, est =>
      if C < est + w ∧ 0 < cur.length then
        planBatchesAux w C rest (batches ++ [cur]) ([] ++ [img]) (0 + w)
      else
        planBatchesAux w C rest batches (cur ++ [img]) (est + w)

def planBatches (w C : Nat) (images : List α) : List (List α) :=
  planBatchesAux w C images [] [] 0

/-- The batches `generateInstagramCaptions` builds from its input emails. -/
def autoBatches (emails : List Email) : List (List ImageRef) :=
  planBatches ESTIMATED_IMAGE_SIZE_KB maxBatchSizeKB (flattenImages emails)

lemma planBatchesAux_flatten (w C : Nat) :
    ∀ (rest : List α) (batches : List (List α)) (cur : List α) (est : Nat),
      (planBatchesAux w C rest batches cur est).flatten = batches.flatten ++ cur ++ rest := by
  intro rest
  induction rest with
  | nil =>
      intro batches cur est
      by_cases h : 0 < cur.length
      · simp [planBatchesAux, h]
      · have hcur : cur = [] := by
          cases cur with
          | nil => rfl
          | cons a t => simp at h
        simp [planBatchesAux, h, hcur]
  | cons img rest ih =>
      intro batches cur est
      by_cases h : C < est + w ∧ 0 < cur.length
      · have hcur : 0 < cur.length := h.2
        have hcur' : cur ≠ [] := by
          cases cur with
          | nil => simp at hcur
          | cons a t => simp
        simp only [planBatchesAux, if_pos h, ih]
        simp
      · simp only [planBatchesAux, if_neg h, ih]
        simp

lemma planBatchesAux_bound (w C : Nat) :
    ∀ (rest : List α) (batches : List (List α)) (cur : List α),
      (∀ b ∈ batches, b.length = 1 ∨ (b.length - 1) * w ≤ C) →
      (cur.length = 0 ∨ cur.length = 1 ∨ (cur.length - 1) * w ≤ C) →
      ∀ b ∈ planBatchesAux w C rest batches cur (cur.length * w),
        b.length = 1 ∨ (b.length - 1) * w ≤ C := by
  intro rest
  induction rest with
  | nil =>
      intro batches cur hb hcur b hmem
      by_cases h : 0 < cur.length
      · simp only [planBatchesAux, if_pos h, List.mem_append, List.mem_singleton] at hmem
        rcases hmem with hmem | rfl
        · exact hb b hmem
        · rcases hcur with h0 | h1 | hle
          · omega
          · exact Or.inl h1
          · exact Or.inr hle
      · simp only [planBatchesAux, if_neg h] at hmem
        exact hb b hmem
  | cons img rest ih =>
      intro batches cur hb hcur b hmem
      by_cases h : C < cur.length * w + w ∧ 0 < cur.length
      · simp only [planBatchesAux, if_pos h] at hmem
        have hb' : ∀ b ∈ batches ++ [cur], b.length = 1 ∨ (b.length - 1) * w ≤ C := by
          intro b hmemb
          rcases List.mem_append.mp hmemb with hmemb | hmemb
          · exact hb b hmemb
          · rcases List.mem_singleton.mp hmemb with rfl
            rcases hcur with h0 | h1 | hle
            · omega
            · exact Or.inl h1
            · exact Or.inr hle
        have hres := ih (batches ++ [cur]) ([] ++ [img]) hb' (by simp)
        simp only [List.nil_append, List.length_cons, List.length_nil] at hres
        exact hres b (by simpa using hmem)
      · simp only [planBatchesAux, if_neg h] at hmem
        have hlen : (cur ++ [img]).length = cur.length + 1 := by simp
        have hcur' : (cur ++ [img]).length = 0 ∨ (cur ++ [img]).length = 1 ∨
            ((cur ++ [img]).length - 1) * w ≤ C := by
          rw [hlen]
          by_cases hc : 0 < cur.length
          · have hle : cur.length * w + w ≤ C := by
              by_contra hgt
              exact h ⟨by omega, hc⟩
            right; right
            simp only [Nat.add_sub_cancel]
            omega
          · have : cur.length = 0 := by omega
            right; left; omega
        have harg : (cur ++ [img]).length * w = cur.length * w + w := by
          rw [hlen, Nat.succ_mul]
        have hres := ih batches (cur ++ [img]) hb hcur'
        rw [harg] at hres
        exact hres b hmem

/-- **C3.** The planner's batches, concatenated in order, equal the input list;
an empty input yields zero batches; any single image (in particular one whose
per-item estimate alone exceeds the ceiling) forms its own singleton batch. -/
theorem planBatches_preserves_input (w C : Nat) (images : List α) :
    (planBatches w C images).flatten = images ∧
    planBatches w C ([] : List α) = [] ∧
    (∀ a : α, planBatches w C [a] = [[a]]) := by
  refine ⟨?_, ?_, ?_⟩
  · have h := planBatchesAux_flatten w C images ([] : List (List α)) [] 0
    simpa [planBatches] using h
  · simp [planBatches, planBatchesAux]
  · intro a
    simp [planBatches, planBatchesAux]

set_option maxRecDepth 4000 in
/-- **C4.** Every batch the planner produces satisfies `(size-1)*w ≤ C` except
possibly batches of size 1; and at the spec's scenario (62 images at the
production per-item weight 500KB against the 30720KB ceiling) the greedy pass
closes batch 1 at 61 images exactly when image 62 would exceed the ceiling,
so image 62 starts batch 2. -/
theorem planBatches_size_bound (w C : Nat) (images : List α) :
    (∀ b ∈ planBatches w C images, b.length = 1 ∨ (b.length - 1) * w ≤ C) ∧
    (planBatches ESTIMATED_IMAGE_SIZE_KB maxBatchSizeKB
        (List.replicate 62 ())).map List.length = [61, 1] := by
  constructor
  · have h := planBatchesAux_bound w C images ([] : List (List α)) []
      (by intro b hb; simp at hb) (Or.inl rfl)
    simpa [planBatches] using h
  · decide

/-! ## Generation client retry loop
(identical in `processBatch` lines 403-441 and `generateCombinedPost`
lines 237-271: `retries = 3`; on `error.status === 529 && i < retries - 1`
wait `(i + 1) * 2000` ms and retry, otherwise rethrow; after the loop a
missing response rethrows the last error). -/

/-- One attempt's outcome from the provider: a raw-text success or an error
carrying the HTTP status (`error.status`; 0 when absent) and a message. -/
inductive AttemptResult
  | ok (text : String)
  | err (status : Nat) (msg : String)
deriving DecidableEq, Repr

/-- The retry loop's observable outcome: how many attempts were made, the
backoff delays (ms) slept between attempts, and the final success text or
the propagated error. -/
inductive RetryOutcome
  | success (attempts : Nat) (delays : List Nat) (text : String)
  | failure (attempts : Nat) (delays : List Nat) (status : Nat) (msg : String)
deriving DecidableEq, Repr

def RetryOutcome.attempts : RetryOutcome → Nat
  | .success n _ _ => n
  | .failure n _ _ _ => n

def RetryOutcome.delays : RetryOutcome → List Nat
  | .success _ d _ => d
  | .failure _ d _ _ => d

/-- `i` is the 0-based attempt counter; `rem` the attempts still allowed
(so `0 < rem - 1` below is the source's `i < retries - 1`).  The `rem = 0`
arm is the source's `if (!response) throw lastError` fallback, unreachable
from `retries = 3`. -/
def retryLoopAux (attempt : Nat → AttemptResult) : Nat → Nat → List Nat → RetryOutcome
  | i, 0, delays => .failure i delays 0 "Failed to get response from Claude"
  | i, rem + 1, delays =>
      match attempt i with
      | .ok text => .success (i + 1) delays text
      | .err status msg =>
          if status = 529 ∧ 0 < rem then
            retryLoopAux attempt (i + 1) rem (delays ++ [(i + 1) * 2000])
          else
            .failure (i + 1) delays status msg

def retryLoop (attempt : Nat → AttemptResult) : RetryOutcome :=
  retryLoopAux attempt 0 3 []

/-- **C5.** The generation-call retry policy: at most 3 attempts; the delays
slept are exactly `k * 2000` ms before attempt `k+1` (2000ms then 4000ms);
every non-final attempt failed with status 529 (so any other failure is
propagated immediately with no retry); a failure outcome propagates exactly
the last attempt's error, and occurs only after the 3rd attempt or on a
non-529 status; a success outcome returns the last attempt's text. -/
theorem retryLoop_policy (attempt : Nat → AttemptResult) :
    (retryLoop attempt).attempts ≤ 3 ∧
    1 ≤ (retryLoop attempt).attempts ∧
    (retryLoop attempt).delays =
      (List.range ((retryLoop attempt).attempts - 1)).map (fun k => (k + 1) * 2000) ∧
    (∀ k, k + 1 < (retryLoop attempt).attempts → ∃ m, attempt k = .err 529 m) ∧
    (∀ n d s m, retryLoop attempt = .failure n d s m →
        attempt (n - 1) = .err s m ∧ (n = 3 ∨ s ≠ 529)) ∧
    (∀ n d t, retryLoop attempt = .success n d t → attempt (n - 1) = .ok t) := by
  rcases h0 : attempt 0 with t0 | ⟨s0, m0⟩
  · have heq : retryLoop attempt = .success 1 [] t0 := by
      simp [retryLoop, retryLoopAux, h0]
    rw [heq]
    refine ⟨by simp [RetryOutcome.attempts],
            by simp [RetryOutcome.attempts],
            by simp [RetryOutcome.attempts, RetryOutcome.delays], ?_, ?_, ?_⟩
    · intro k hk
      simp [RetryOutcome.attempts] at hk
    · intro n d s m h
      simp at h
    · intro n d t h
      simp only [RetryOutcome.success.injEq] at h
      obtain ⟨rfl, rfl, rfl⟩ := h
      simpa using h0
  · by_cases hs0 : s0 = 529
    · subst hs0
      rcases h1 : attempt 1 with t1 | ⟨s1, m1⟩
      · have heq : retryLoop attempt = .success 2 [2000] t1 := by
          simp [retryLoop, retryLoopAux, h0, h1]
        rw [heq]
        refine ⟨by simp [RetryOutcome.attempts],
                by simp [RetryOutcome.attempts],
                by simp [RetryOutcome.attempts, RetryOutcome.delays]; decide, ?_, ?_, ?_⟩
        · intro k hk
          simp only [RetryOutcome.attempts] at hk
          have hk0 : k = 0 := by omega
          subst hk0
          exact ⟨m0, h0⟩
        · intro n d s m h
          simp at h
        · intro n d t h
          simp only [RetryOutcome.success.injEq] at h
          obtain ⟨rfl, rfl, rfl⟩ := h
          simpa using h1
      · by_cases hs1 : s1 = 529
        · subst hs1
          rcases h2 : attempt 2 with t2 | ⟨s2, m2⟩
          · have heq : retryLoop attempt = .success 3 [2000, 4000] t2 := by
              simp [retryLoop, retryLoopAux, h0, h1, h2]
            rw [heq]
            refine ⟨by simp [RetryOutcome.attempts],
                    by simp [RetryOutcome.attempts],
                    by simp [RetryOutcome.attempts, RetryOutcome.delays]; decide, ?_, ?_, ?_⟩
            · intro k hk
              simp only [RetryOutcome.attempts] at hk
              have hk01 : k = 0 ∨ k = 1 := by omega
              rcases hk01 with rfl | rfl
              · exact ⟨m0, h0⟩
              · exact ⟨m1, h1⟩
            · intro n d s m h
              simp at h
            · intro n d t h
              simp only [RetryOutcome.success.injEq] at h
              obtain ⟨rfl, rfl, rfl⟩ := h
              simpa using h2
          · have heq : retryLoop attempt = .failure 3 [2000, 4000] s2 m2 := by
              simp [retryLoop, retryLoopAux, h0, h1, h2]
            rw [heq]
            refine ⟨by simp [RetryOutcome.attempts],
                    by simp [RetryOutcome.attempts],
                    by simp [RetryOutcome.attempts, RetryOutcome.delays]; decide, ?_, ?_, ?_⟩
            · intro k hk
              simp only [RetryOutcome.attempts] at hk
              have hk01 : k = 0 ∨ k = 1 := by omega
              rcases hk01 with rfl | rfl
              · exact ⟨m0, h0⟩
              · exact ⟨m1, h1⟩
            · intro n d s m h
              simp only [RetryOutcome.failure.injEq] at h
              obtain ⟨rfl, rfl, rfl, rfl⟩ := h
              exact ⟨by simpa using h2, Or.inl rfl⟩
            · intro n d t h
              simp at h
        · have heq : retryLoop attempt = .failure 2 [2000] s1 m1 := by
            simp [retryLoop, retryLoopAux, h0, h1, hs1]
          rw [heq]
          refine ⟨by simp [RetryOutcome.attempts],
                  by simp [RetryOutcome.attempts],
                  by simp [RetryOutcome.attempts, RetryOutcome.delays]; decide, ?_, ?_, ?_⟩
          · intro k hk
            simp only [RetryOutcome.attempts] at hk
            have hk0 : k = 0 := by omega
            subst hk0
            exact ⟨m0, h0⟩
          · intro n d s m h
            simp only [RetryOutcome.failure.injEq] at h
            obtain ⟨rfl, rfl, rfl, rfl⟩ := h
            exact ⟨by simpa using h1, Or.inr hs1⟩
          · intro n d t h
            simp at h
    · have heq : retryLoop attempt = .failure 1 [] s0 m0 := by
        simp [retryLoop, retryLoopAux, h0, hs0]
      rw [heq]
      refine ⟨by simp [RetryOutcome.attempts],
              by simp [RetryOutcome.attempts],
              by simp [RetryOutcome.attempts, RetryOutcome.delays], ?_, ?_, ?_⟩
      · intro k hk
        simp [RetryOutcome.attempts] at hk
      · intro n d s m h
        simp only [RetryOutcome.failure.injEq] at h
        obtain ⟨rfl, rfl, rfl, rfl⟩ := h
        exact ⟨by simpa using h0, Or.inr hs0⟩
      · intro n d t h
        simp at h

/-! ## Image resolution and request building -/

/-- Outcome of `imageUrlToBase64(imageUrl)`: the resolved
`{mediaType, base64Data}` pair, or the thrown error (fetch failure, invalid
locator form, ...).  Resolution is a network/parsing effect, modelled as an
oracle keyed by the locator string. -/
inductive ResolveResult
  | ok (mediaType : String) (base64Data : String)
  | failed (msg : String)
deriving DecidableEq, Repr

/-- The 5MB admission check `(base64Data.length * 0.75) / (1024 * 1024) > 5`,
written as the exactly-equivalent integer comparison. -/
def tooLarge (len : Nat) : Bool := 5 * (1024 * 1024) * 4 < len * 3

/-- One `{type:'text'}` or `{type:'image'}` content block of the request. -/
inductive ContentBlock
  | text (text : String)
  | image (mediaType : String) (data : String)
deriving DecidableEq, Repr

/-- Selection-mode intro block (processBatch lines 322-338). -/
def selectionIntro (dateStr : String) (n : Nat) : String :=
  "You are a social media manager for a school. Today\x27s date is " ++
  (dateStr ++
  (".\n\nYou will review " ++
  (toString n ++
  (" images with their associated email content from today. Your task is to:\n\n1. Review all the images and their associated email content\n2. Select the 3-5 BEST image+caption combinations that would work great for Instagram\n3. For each selected image, write an engaging Instagram caption (max 60 words, upbeat, mention key details)\n\nFocus on images that are:\n- Visually appealing and clear\n- Show engaging activities or moments\n- Would resonate with parents and students\n\nHere are the images with their context:\n\n"))))

/-- Selection-mode per-image context block (processBatch lines 344-350). -/
def selectionCtx (idx : Nat) (image : ImageRef) : String :=
  "--- Image " ++
  (toString (idx + 1) ++
  (" ---\nSubject: " ++
  ((image.subject.getD "No subject") ++
  ("\nFrom: " ++
  ((image.sender.getD "Unknown") ++
  ("\nText content: " ++
  (((image.textContent.getD "").take 1500) ++ "\n")))))))

/-- Selection-mode trailing instruction block (processBatch lines 386-401). -/
def selectionOutro : String :=
  "\n\nNow, select the 3-5 best image+caption combinations. Respond in valid JSON with this exact shape:\n\x7b\n  \"selections\": [\n    \x7b\n      \"image_index\": 0,\n      \"caption\": \"Your engaging Instagram caption here...\",\n      \"reasoning\": \"Brief explanation of why this image works well\"\n    \x7d\n  ]\n\x7d\n\nThe image_index is 0-based (Image 1 = index 0).\nMake sure to pick the most visually appealing and engaging combinations."

/-- Combined-mode intro block (generateCombinedPost lines 159-172). -/
def combinedIntro (dateStr : String) (n : Nat) : String :=
  "You are a social media manager for a school. Today\x27s date is " ++
  (dateStr ++
  (".\n\nA user has selected " ++
  (toString n ++
  (" image" ++
  ((if 1 < n then "s" else "") ++
  (" to create an Instagram post.\n\nYour task is to:\n1. Review all " ++
  (toString n ++
  (" image" ++
  ((if 1 < n then "s" else "") ++
  (" and their associated email content\n2. Write ONE engaging Instagram caption that captures the essence of all the images together\n3. The caption should be engaging, upbeat, and mention key details\n4. Maximum 60 words\n\nHere are the selected images:\n\n"))))))))))

/-- Combined-mode per-image context block (generateCombinedPost lines 177-183;
shorter truncation and `Text:` label, unlike selection mode). -/
def combinedCtx (idx : Nat) (image : ImageRef) : String :=
  "--- Image " ++
  (toString (idx + 1) ++
  (" ---\nSubject: " ++
  ((image.subject.getD "No subject") ++
  ("\nFrom: " ++
  ((image.sender.getD "Unknown") ++
  ("\nText: " ++
  (((image.textContent.getD "").take 500) ++ "\n")))))))

/-- Combined-mode trailing instruction block (generateCombinedPost
lines 226-235). -/
def combinedOutro (n : Nat) : String :=
  "\n\nNow write a single Instagram caption that captures all " ++
  (toString n ++
  (" image" ++
  ((if 1 < n then "s" else "") ++
  (". Respond in valid JSON with this exact shape:\n\x7b\n  \"caption\": \"Your engaging Instagram caption here...\",\n  \"reasoning\": \"Brief explanation of your caption choice\"\n\x7d\n\nMake the caption upbeat, engaging, and suitable for parents and students."))))

/-- The per-image loop of `processBatch` (lines 341-383): always push the
context block; on resolution success push the image block unless the decoded
size exceeds 5MB, in which case `continue` (skipping the trailing newline
block too); on resolution failure push nothing extra; the separating
newline block is pushed whenever `continue` was not hit. -/
def selectionImageBlocks (resolve : String → ResolveResult) : Nat → List ImageRef → List ContentBlock
  | _, [] => []
  | idx, image :: rest =>
      (ContentBlock.text (selectionCtx idx image) ::
        (match resolve image.imageUrl with
         | .failed _ => [ContentBlock.text "\n"]
         | .ok mediaType base64Data =>
             if tooLarge base64Data.length then []
             else [ContentBlock.image mediaType base64Data, ContentBlock.text "\n"])) ++
      selectionImageBlocks resolve (idx + 1) rest

/-- The per-image loop of `generateCombinedPost` (lines 175-223): context
block; then on failure the `"[Image could not be loaded]\n"` placeholder and
the separating newline; on an over-5MB image the
`"[Image too large to process]\n"` placeholder and `continue` (no separating
newline); otherwise the image block and the separating newline. -/
def combinedImageBlocks (resolve : String → ResolveResult) : Nat → List ImageRef → List ContentBlock
  | _, [] => []
  | idx, image :: rest =>
      (ContentBlock.text (combinedCtx idx image) ::
        (match resolve image.imageUrl with
         | .failed _ => [ContentBlock.text "[Image could not be loaded]\n", ContentBlock.text "\n"]
         | .ok mediaType base64Data =>
             if tooLarge base64Data.length then [ContentBlock.text "[Image too large to process]\n"]
             else [ContentBlock.image mediaType base64Data, ContentBlock.text "\n"])) ++
      combinedImageBlocks resolve (idx + 1) rest

/-- The full selection-mode request content for a batch. -/
def selectionContent (resolve : String → ResolveResult) (batch : List ImageRef)
    (dateStr : String) : List ContentBlock :=
  ContentBlock.text (selectionIntro dateStr batch.length) ::
    selectionImageBlocks resolve 0 batch ++ [ContentBlock.text selectionOutro]

/-- The full combined-mode request content for the selected images. -/
def combinedContent (resolve : String → ResolveResult) (images : List ImageRef)
    (dateStr : String) : List ContentBlock :=
  ContentBlock.text (combinedIntro dateStr images.length) ::
    combinedImageBlocks resolve 0 images ++ [ContentBlock.text (combinedOutro images.length)]

def isLoadFailBlock : ContentBlock → Bool
  | .text s => s = "[Image could not be loaded]\n"
  | .image _ _ => false

def isTooLargeBlock : ContentBlock → Bool
  | .text s => s = "[Image too large to process]\n"
  | .image _ _ => false

def isFailedResolve : ResolveResult → Bool
  | .failed _ => true
  | .ok _ _ => false

def isOversized : ResolveResult → Bool
  | .ok _ base64Data => tooLarge base64Data.length
  | .failed _ => false

lemma head_append (a b : String) (c : Char) (h : a.data.head? = some c) :
    (a ++ b).data.head? = some c := by
  rw [String.data_append]
  cases hd : a.data with
  | nil => simp [hd] at h
  | cons x xs =>
      rw [hd] at h
      simp at h
      simp [h]

lemma ne_of_head (s t : String) (cs ct : Char) (hs : s.data.head? = some cs)
    (ht : t.data.head? = some ct) (hne : cs ≠ ct) : s ≠ t := by
  intro h
  rw [h, ht] at hs
  have hcc : ct = cs := by simpa using hs
  exact hne hcc.symm

lemma selectionCtx_head (idx : Nat) (image : ImageRef) :
    (selectionCtx idx image).data.head? = some '-' := by
  unfold selectionCtx
  apply head_append
  rfl

lemma combinedCtx_head (idx : Nat) (image : ImageRef) :
    (combinedCtx idx image).data.head? = some '-' := by
  unfold combinedCtx
  apply head_append
  rfl

lemma selectionIntro_head (dateStr : String) (n : Nat) :
    (selectionIntro dateStr n).data.head? = some 'Y' := by
  unfold selectionIntro
  apply head_append
  rfl

lemma combinedIntro_head (dateStr : String) (n : Nat) :
    (combinedIntro dateStr n).data.head? = some 'Y' := by
  unfold combinedIntro
  apply head_append
  rfl

lemma combinedOutro_head (n : Nat) :
    (combinedOutro n).data.head? = some '\n' := by
  unfold combinedOutro
  apply head_append
  rfl

lemma selectionCtx_ne (idx : Nat) (image : ImageRef) :
    selectionCtx idx image ≠ "[Image could not be loaded]\n" ∧
    selectionCtx idx image ≠ "[Image too large to process]\n" := by
  constructor <;>
    exact ne_of_head _ _ '-' '[' (selectionCtx_head idx image) rfl (by decide)

lemma combinedCtx_ne (idx : Nat) (image : ImageRef) :
    combinedCtx idx image ≠ "[Image could not be loaded]\n" ∧
    combinedCtx idx image ≠ "[Image too large to process]\n" := by
  constructor <;>
    exact ne_of_head _ _ '-' '[' (combinedCtx_head idx image) rfl (by decide)

lemma selectionIntro_ne (dateStr : String) (n : Nat) :
    selectionIntro dateStr n ≠ "[Image could not be loaded]\n" ∧
    selectionIntro dateStr n ≠ "[Image too large to process]\n" := by
  constructor <;>
    exact ne_of_head _ _ 'Y' '[' (selectionIntro_head dateStr n) rfl (by decide)

lemma combinedIntro_ne (dateStr : String) (n : Nat) :
    combinedIntro dateStr n ≠ "[Image could not be loaded]\n" ∧
    combinedIntro dateStr n ≠ "[Image too large to process]\n" := by
  constructor <;>
    exact ne_of_head _ _ 'Y' '[' (combinedIntro_head dateStr n) rfl (by decide)

lemma selectionOutro_head : selectionOutro.data.head? = some '\n' := rfl

lemma selectionOutro_ne :
    selectionOutro ≠ "[Image could not be loaded]\n" ∧
    selectionOutro ≠ "[Image too large to process]\n" := by
  constructor <;>
    exact ne_of_head _ _ '\n' '[' selectionOutro_head rfl (by decide)

lemma combinedOutro_ne (n : Nat) :
    combinedOutro n ≠ "[Image could not be loaded]\n" ∧
    combinedOutro n ≠ "[Image too large to process]\n" := by
  constructor <;>
    exact ne_of_head _ _ '\n' '[' (combinedOutro_head n) rfl (by decide)

lemma selectionImageBlocks_counts (resolve : String → ResolveResult) :
    ∀ (batch : List ImageRef) (idx : Nat),
      (selectionImageBlocks resolve idx batch).countP isLoadFailBlock = 0 ∧
      (selectionImageBlocks resolve idx batch).countP isTooLargeBlock = 0 := by
  intro batch
  induction batch with
  | nil => intro idx; simp [selectionImageBlocks]
  | cons image rest ih =>
      intro idx
      obtain ⟨ih1, ih2⟩ := ih (idx + 1)
      have hctx := selectionCtx_ne idx image
      rcases hres : resolve image.imageUrl with ⟨mediaType, base64Data⟩ | msg
      · by_cases hbig : tooLarge base64Data.length
        · constructor <;>
            simp [selectionImageBlocks, hres, hbig, List.countP_cons, List.countP_append,
              hctx.1, hctx.2, ih1, ih2, isLoadFailBlock, isTooLargeBlock]
        · constructor <;>
            simp [selectionImageBlocks, hres, hbig, List.countP_cons, List.countP_append,
              hctx.1, hctx.2, ih1, ih2, isLoadFailBlock, isTooLargeBlock]
      · constructor <;>
          simp [selectionImageBlocks, hres, List.countP_cons, List.countP_append,
            hctx.1, hctx.2, ih1, ih2, isLoadFailBlock, isTooLargeBlock]

lemma selectionImageBlocks_length (resolve : String → ResolveResult) :
    ∀ (batch : List ImageRef) (idx : Nat),
      batch.length ≤ (selectionImageBlocks resolve idx batch).length := by
  intro batch
  induction batch with
  | nil => intro idx; simp [selectionImageBlocks]
  | cons image rest ih =>
      intro idx
      have ih3 := ih (idx + 1)
      rcases hres : resolve image.imageUrl with ⟨mediaType, base64Data⟩ | msg
      · by_cases hbig : tooLarge base64Data.length
        · simp only [selectionImageBlocks, hres, hbig, if_pos, List.length_cons,
            List.length_append, List.length_nil]
          omega
        · simp only [selectionImageBlocks, hres, hbig, Bool.false_eq_true, if_false,
            List.length_cons, List.length_append, List.length_nil]
          omega
      · simp only [selectionImageBlocks, hres, List.length_cons, List.length_append,
          List.length_nil]
        omega

lemma combinedImageBlocks_counts (resolve : String → ResolveResult) :
    ∀ (images : List ImageRef) (idx : Nat),
      (combinedImageBlocks resolve idx images).countP isLoadFailBlock =
        images.countP (fun img => isFailedResolve (resolve img.imageUrl)) ∧
      (combinedImageBlocks resolve idx images).countP isTooLargeBlock =
        images.countP (fun img => isOversized (resolve img.imageUrl)) := by
  intro images
  induction images with
  | nil => intro idx; simp [combinedImageBlocks]
  | cons image rest ih =>
      intro idx
      obtain ⟨ih1, ih2⟩ := ih (idx + 1)
      have hctx := combinedCtx_ne idx image
      rcases hres : resolve image.imageUrl with ⟨mediaType, base64Data⟩ | msg
      · by_cases hbig : tooLarge base64Data.length
        · constructor <;>
            simp [combinedImageBlocks, hres, hbig, List.countP_cons, List.countP_append,
              hctx.1, hctx.2, ih1, ih2, isLoadFailBlock, isTooLargeBlock,
              isFailedResolve, isOversized]
        · constructor <;>
            simp [combinedImageBlocks, hres, hbig, List.countP_cons, List.countP_append,
              hctx.1, hctx.2, ih1, ih2, isLoadFailBlock, isTooLargeBlock,
              isFailedResolve, isOversized]
      · constructor <;>
          simp [combinedImageBlocks, hres, List.countP_cons, List.countP_append,
            hctx.1, hctx.2, ih1, ih2, isLoadFailBlock, isTooLargeBlock,
            isFailedResolve, isOversized]

lemma combinedImageBlocks_length (resolve : String → ResolveResult) :
    ∀ (images : List ImageRef) (idx : Nat),
      images.length ≤ (combinedImageBlocks resolve idx images).length := by
  intro images
  induction images with
  | nil => intro idx; simp [combinedImageBlocks]
  | cons image rest ih =>
      intro idx
      have ih3 := ih (idx + 1)
      rcases hres : resolve image.imageUrl with ⟨mediaType, base64Data⟩ | msg
      · by_cases hbig : tooLarge base64Data.length
        · simp only [combinedImageBlocks, hres, hbig, if_pos, List.length_cons,
            List.length_append, List.length_nil]
          omega
        · simp only [combinedImageBlocks, hres, hbig, Bool.false_eq_true, if_false,
            List.length_cons, List.length_append, List.length_nil]
          omega
      · simp only [combinedImageBlocks, hres, List.length_cons, List.length_append,
          List.length_nil]
        omega

/-- **C6 (amended).** Placeholder blocks are emitted only in combined mode:
there, each image whose resolution fails contributes exactly one
`"[Image could not be loaded]\n"` block and each image whose decoded size
exceeds the 5MB admission threshold contributes exactly one
`"[Image too large to process]\n"` block; in selection mode the built request
contains no placeholder block at all (the failed or oversized image is
silently skipped).  In both modes a failed or oversized image never aborts the
batch: every image still contributes its per-image context block, so the
request contains at least one block per image. -/
theorem requestBuilder_placeholders (resolve : String → ResolveResult)
    (batch : List ImageRef) (dateStr : String) :
    ((selectionContent resolve batch dateStr).countP isLoadFailBlock = 0 ∧
     (selectionContent resolve batch dateStr).countP isTooLargeBlock = 0) ∧
    ((combinedContent resolve batch dateStr).countP isLoadFailBlock =
        batch.countP (fun img => isFailedResolve (resolve img.imageUrl)) ∧
     (combinedContent resolve batch dateStr).countP isTooLargeBlock =
        batch.countP (fun img => isOversized (resolve img.imageUrl))) ∧
    (batch.length ≤ (selectionImageBlocks resolve 0 batch).length ∧
     batch.length ≤ (combinedImageBlocks resolve 0 batch).length) := by
  obtain ⟨hs1, hs2⟩ := selectionImageBlocks_counts resolve batch 0
  obtain ⟨hc1, hc2⟩ := combinedImageBlocks_counts resolve batch 0
  have hs3 := selectionImageBlocks_length resolve batch 0
  have hc3 := combinedImageBlocks_length resolve batch 0
  have hsi := selectionIntro_ne dateStr batch.length
  have hci := combinedIntro_ne dateStr batch.length
  have hco := combinedOutro_ne batch.length
  have hso := selectionOutro_ne
  refine ⟨⟨?_, ?_⟩, ⟨?_, ?_⟩, hs3, hc3⟩ <;>
    simp [selectionContent, combinedContent, List.countP_cons, List.countP_append,
      hs1, hs2, hc1, hc2, hsi.1, hsi.2, hci.1, hci.2, hco.1, hco.2, hso.1, hso.2,
      isLoadFailBlock, isTooLargeBlock]

/-- A concrete single-image batch whose image fails to resolve. -/
def cimg : ImageRef :=
  { imageUrl := "http://x/a.png", emailId := "e1", subject := none, sender := none,
    textContent := none }

def resolveFailAll : String → ResolveResult := fun _ => .failed "fetch failed"

/-- **C6 (counterexample).** In selection mode, the request built for a
single-image batch whose image fails to resolve contains no
`"[Image could not be loaded]"` placeholder block (with or without the
trailing newline the source appends): contrary to the claim, the failed image
is dropped silently in selection mode, not replaced by a placeholder. -/
theorem selectionMode_no_placeholder_counterexample :
    ContentBlock.text "[Image could not be loaded]\n" ∉
      selectionContent resolveFailAll [cimg] "2025-01-01" ∧
    ContentBlock.text "[Image could not be loaded]" ∉
      selectionContent resolveFailAll [cimg] "2025-01-01" ∧
    (selectionContent resolveFailAll [cimg] "2025-01-01").countP isLoadFailBlock = 0 := by
  have hintro := selectionIntro_head "2025-01-01" 1
  have hctx := selectionCtx_head 0 cimg
  have hcontent : selectionContent resolveFailAll [cimg] "2025-01-01" =
      [ContentBlock.text (selectionIntro "2025-01-01" 1),
       ContentBlock.text (selectionCtx 0 cimg),
       ContentBlock.text "\n",
       ContentBlock.text selectionOutro] := by
    simp [selectionContent, selectionImageBlocks, resolveFailAll]
  rw [hcontent]
  refine ⟨?_, ?_, ?_⟩
  · intro hmem
    simp only [List.mem_cons, List.not_mem_nil, or_false, ContentBlock.text.injEq] at hmem
    rcases hmem with h | h | h | h
    · exact (ne_of_head "[Image could not be loaded]\n" _ '[' 'Y' rfl hintro (by decide)) h
    · exact (ne_of_head "[Image could not be loaded]\n" _ '[' '-' rfl hctx (by decide)) h
    · exact (ne_of_head "[Image could not be loaded]\n" "\n" '[' '\n' rfl rfl (by decide)) h
    · exact (ne_of_head "[Image could not be loaded]\n" _ '[' '\n' rfl selectionOutro_head
        (by decide)) h
  · intro hmem
    simp only [List.mem_cons, List.not_mem_nil, or_false, ContentBlock.text.injEq] at hmem
    rcases hmem with h | h | h | h
    · exact (ne_of_head "[Image could not be loaded]" _ '[' 'Y' rfl hintro (by decide)) h
    · exact (ne_of_head "[Image could not be loaded]" _ '[' '-' rfl hctx (by decide)) h
    · exact (ne_of_head "[Image could not be loaded]" "\n" '[' '\n' rfl rfl (by decide)) h
    · exact (ne_of_head "[Image could not be loaded]" _ '[' '\n' rfl selectionOutro_head
        (by decide)) h
  · have h1 : selectionIntro "2025-01-01" 1 ≠ "[Image could not be loaded]\n" :=
      (selectionIntro_ne "2025-01-01" 1).1
    have h2 : selectionCtx 0 cimg ≠ "[Image could not be loaded]\n" :=
      (selectionCtx_ne 0 cimg).1
    have h3 := selectionOutro_ne.1
    simp [List.countP_cons, isLoadFailBlock, h1, h2, h3]

/-! ## Response validation and selection-mode orchestration -/

/-- A post candidate as assembled by `processBatch` / `generateCombinedPost`
(`{caption_text, email_id, source_image_url, source_image_urls, created_at}`). -/
structure Post where
  caption_text : String
  email_id : String
  source_image_url : String
  source_image_urls : Option (List String)
  created_at : String
deriving DecidableEq, Repr

/-- One entry of the model-returned `selections` array (the `reasoning` field
is never read by the code).  `image_index` is an arbitrary JSON integer. -/
structure Selection where
  image_index : Int
  caption : String
deriving DecidableEq, Repr

/-- JavaScript array indexing `batch[i]`: `undefined` (`none`) for any index
outside `0 ≤ i < batch.length`. -/
def jsGet (l : List α) (i : Int) : Option α :=
  if i < 0 then none else l.get? i.toNat

/-- `parsed.selections.map(...).filter(Boolean)` (processBatch lines 462-478):
an entry whose `image_index` does not resolve inside the batch becomes `null`
and is filtered out; a resolving entry is mapped to a post carrying that
image\x27s email id and URL. -/
def validateSelections (now : String) (batch : List ImageRef)
    (sels : List Selection) : List Post :=
  sels.filterMap (fun selection =>
    (jsGet batch selection.image_index).map (fun image =>
      let imageUrls := if image.imageUrl = "" then [] else [image.imageUrl]
      { caption_text := selection.caption
        email_id := image.emailId
        source_image_url := image.imageUrl
        source_image_urls := if 0 < imageUrls.length then some imageUrls else none
        created_at := now }))

/-- Outcome of `JSON.parse` (after fence stripping) on the model text, as an
oracle: a parse error, or a parsed object whose `selections` field is either
missing / not an array (`none`) or an array. -/
inductive SelParse
  | parseError
  | parsed (selections : Option (List Selection))
deriving DecidableEq, Repr

/-- `if (!Array.isArray(parsed.selections) || parsed.selections.length === 0)
return []` then the map/filter step (processBatch lines 456-481). -/
def selectionsToPosts (now : String) (batch : List ImageRef)
    (sels? : Option (List Selection)) : List Post :=
  match sels? with
  | none => []
  | some sels => if sels.length = 0 then [] else validateSelections now batch sels

inductive PipelineError
  | notConfigured
  | generationError (status : Nat) (msg : String)
  | parseFailed
  | noImages
  | tooManyImages
  | captionParseFailed
deriving DecidableEq, Repr

/-- The ambient effects of one pipeline run: the run timestamp, the date
string, and the three oracles (image resolution; the generation client keyed
by batch index, request content and attempt number; JSON parsing). -/
structure Env where
  now : String
  dateStr : String
  resolve : String → ResolveResult
  client : Nat → List ContentBlock → Nat → AttemptResult
  parse : String → SelParse

/-- `processBatch(batch, date, batchIndex)`: build the request content, run
the generation client under the retry loop, then parse and validate.  A
retry-exhausted or non-529 client error and a JSON parse failure are thrown
(`Except.error`); a missing or empty `selections` array is not. -/
def processBatch (env : Env) (batchIndex : Nat) (batch : List ImageRef) :
    Except PipelineError (List Post) :=
  let contentBlocks := selectionContent env.resolve batch env.dateStr
  match retryLoop (env.client batchIndex contentBlocks) with
  | .failure _ _ status msg => .error (.generationError status msg)
  | .success _ _ text =>
      match env.parse text with
      | .parseError => .error .parseFailed
      | .parsed sels? => .ok (selectionsToPosts env.now batch sels?)

/-- The batch loop of `generateInstagramCaptions` (lines 114-130), instrumented
with the list of batch indices for which `processBatch` (and hence the
generation client) was invoked.  After appending a batch\x27s posts the loop
stops when the accumulator has reached 3 posts; an error aborts immediately. -/
def runBatchesT (env : Env) :
    Nat → List (List ImageRef) → List Post → List Nat × Except PipelineError (List Post)
  | _, [], allPosts => ([], .ok allPosts)
  | batchIndex, batch :: rest, allPosts =>
      match processBatch env batchIndex batch with
      | .error e => ([batchIndex], .error e)
      | .ok posts =>
          let allPosts' := allPosts ++ posts
          if 3 ≤ allPosts'.length then ([batchIndex], .ok allPosts')
          else
            let r := runBatchesT env (batchIndex + 1) rest allPosts'
            (batchIndex :: r.1, r.2)

/-- `generateInstagramCaptions({emails, date})` with the invocation trace:
configuration check, empty-input shortcut, flatten, plan, run the batch loop,
and cap the successful result at 5 posts (`allPosts.slice(0, 5)`). -/
def generateInstagramCaptionsT (env : Env) (configured : Bool) (emails : List Email) :
    List Nat × Except PipelineError (List Post) :=
  if configured then
    if emails.length = 0 then ([], .ok [])
    else
      let r := runBatchesT env 0 (autoBatches emails) []
      (r.1, r.2.map (fun allPosts => allPosts.take 5))
  else ([], .error .notConfigured)

def generateInstagramCaptions (env : Env) (configured : Bool) (emails : List Email) :
    Except PipelineError (List Post) :=
  (generateInstagramCaptionsT env configured emails).2

/-- The posts a batch contributes to the accumulator (none if it errors). -/
def postsOfBatch (env : Env) (batchIndex : Nat) (batch : List ImageRef) : List Post :=
  match processBatch env batchIndex batch with
  | .ok posts => posts
  | .error _ => []

/-- The accumulator contents after the first `n` of the given batches have
been processed (starting from batch index `batchIndex` and accumulator `acc`). -/
def accState (env : Env) :
    Nat → List (List ImageRef) → List Post → Nat → List Post
  | _, _, acc, 0 => acc
  | _, [], acc, _ + 1 => acc
  | batchIndex, batch :: rest, acc, n + 1 =>
      accState env (batchIndex + 1) rest (acc ++ postsOfBatch env batchIndex batch) n


/-- **C8.** Selection-mode validation: a post is produced exactly for those
entries whose `image_index` resolves to an image of the batch (all others are
dropped), and it carries that entry\x27s caption together with the resolved
image\x27s email id and URL; a missing or empty `selections` array yields zero
posts rather than an error, and a non-empty array is validated entrywise. -/
theorem validateSelections_spec (now : String) (batch : List ImageRef)
    (sels : List Selection) :
    (∀ p, p ∈ validateSelections now batch sels ↔
        ∃ s ∈ sels, ∃ image, jsGet batch s.image_index = some image ∧
          p = { caption_text := s.caption
                email_id := image.emailId
                source_image_url := image.imageUrl
                source_image_urls :=
                  if image.imageUrl = "" then none else some [image.imageUrl]
                created_at := now }) ∧
    selectionsToPosts now batch none = [] ∧
    selectionsToPosts now batch (some []) = [] ∧
    (∀ sels', selectionsToPosts now batch (some sels') =
        validateSelections now batch sels') := by
  refine ⟨?_, rfl, rfl, ?_⟩
  · intro p
    simp only [validateSelections, List.mem_filterMap, Option.map_eq_some']
    constructor
    · rintro ⟨sel, hsel, image, himg, hp⟩
      refine ⟨sel, hsel, image, himg, ?_⟩
      subst hp
      by_cases hurl : image.imageUrl = "" <;> simp [hurl]
    · rintro ⟨sel, hsel, image, himg, hp⟩
      refine ⟨sel, hsel, image, himg, ?_⟩
      subst hp
      by_cases hurl : image.imageUrl = "" <;> simp [hurl]
  · intro sels'
    cases sels' with
    | nil => simp [selectionsToPosts, validateSelections]
    | cons a t => simp [selectionsToPosts]

lemma runBatchesT_trace_ge (env : Env) :
    ∀ (bs : List (List ImageRef)) (s : Nat) (acc : List Post),
      ∀ j ∈ (runBatchesT env s bs acc).1, s ≤ j := by
  intro bs
  induction bs with
  | nil =>
      intro s acc j hj
      simp [runBatchesT] at hj
  | cons b rest ih =>
      intro s acc j hj
      cases hpb : processBatch env s b with
      | error e =>
          simp [runBatchesT, hpb] at hj
          omega
      | ok posts =>
          by_cases hlen : 3 ≤ acc.length + posts.length
          · simp [runBatchesT, hpb, hlen] at hj
            omega
          · have hj' : j = s ∨ j ∈ (runBatchesT env (s + 1) rest (acc ++ posts)).1 := by
              simpa [runBatchesT, hpb, hlen] using hj
            rcases hj' with rfl | hjr
            · omega
            · have := ih (s + 1) (acc ++ posts) j hjr
              omega

lemma runBatchesT_stop (env : Env) :
    ∀ (bs : List (List ImageRef)) (s : Nat) (acc : List Post) (n : Nat),
      acc.length < 3 → 3 ≤ (accState env s bs acc n).length →
      ∀ j ∈ (runBatchesT env s bs acc).1, j < s + n := by
  intro bs
  induction bs with
  | nil =>
      intro s acc n h3 hacc j hj
      simp [runBatchesT] at hj
  | cons b rest ih =>
      intro s acc n h3 hacc j hj
      cases n with
      | zero =>
          simp [accState] at hacc
          omega
      | succ m =>
          cases hpb : processBatch env s b with
          | error e =>
              simp [runBatchesT, hpb] at hj
              omega
          | ok posts =>
              have hpost : postsOfBatch env s b = posts := by
                simp [postsOfBatch, hpb]
              by_cases hlen : 3 ≤ acc.length + posts.length
              · simp [runBatchesT, hpb, hlen] at hj
                omega
              · have hj' : j = s ∨ j ∈ (runBatchesT env (s + 1) rest (acc ++ posts)).1 := by
                  simpa [runBatchesT, hpb, hlen] using hj
                have hacc' : 3 ≤ (accState env (s + 1) rest (acc ++ posts) m).length := by
                  have hunfold : accState env s (b :: rest) acc (m + 1) =
                      accState env (s + 1) rest (acc ++ postsOfBatch env s b) m := rfl
                  rw [hunfold, hpost] at hacc
                  exact hacc
                rcases hj' with rfl | hjr
                · omega
                · have := ih (s + 1) (acc ++ posts) m (by simp only [List.length_append]; omega) hacc' j hjr
                  omega

lemma runBatchesT_fatal (env : Env) :
    ∀ (bs : List (List ImageRef)) (s : Nat) (acc : List Post) (j : Nat)
      (b : List ImageRef) (e : PipelineError),
      j ∈ (runBatchesT env s bs acc).1 → bs.get? (j - s) = some b →
      processBatch env j b = .error e →
      (runBatchesT env s bs acc).2 = .error e ∧
      ∀ j' ∈ (runBatchesT env s bs acc).1, j' ≤ j := by
  intro bs
  induction bs with
  | nil =>
      intro s acc j b e hj hb he
      simp [runBatchesT] at hj
  | cons b0 rest ih =>
      intro s acc j b e hj hb he
      cases hpb : processBatch env s b0 with
      | error e0 =>
          have hj' : j = s := by simpa [runBatchesT, hpb] using hj
          subst hj'
          have hb' : b = b0 := by
            have : (b0 :: rest).get? 0 = some b := by simpa using hb
            simpa using this.symm
          subst hb'
          rw [hpb] at he
          have he' : e0 = e := by
            injection he
          subst he'
          constructor
          · simp [runBatchesT, hpb]
          · intro j' hj'
            have : j' = j := by simpa [runBatchesT, hpb] using hj'
            omega
      | ok posts =>
          by_cases hlen : 3 ≤ acc.length + posts.length
          · have hj' : j = s := by simpa [runBatchesT, hpb, hlen] using hj
            subst hj'
            have hb' : b = b0 := by
              have : (b0 :: rest).get? 0 = some b := by simpa using hb
              simpa using this.symm
            subst hb'
            rw [hpb] at he
            exact absurd he (by simp)
          · have hj' : j = s ∨ j ∈ (runBatchesT env (s + 1) rest (acc ++ posts)).1 := by
              simpa [runBatchesT, hpb, hlen] using hj
            rcases hj' with rfl | hjr
            · have hb' : b = b0 := by
                have : (b0 :: rest).get? 0 = some b := by simpa using hb
                simpa using this.symm
              subst hb'
              rw [hpb] at he
              exact absurd he (by simp)
            · have hsle : s + 1 ≤ j := runBatchesT_trace_ge env rest (s + 1) (acc ++ posts) j hjr
              have hb' : rest.get? (j - (s + 1)) = some b := by
                have hidx : j - s = (j - (s + 1)) + 1 := by omega
                rw [hidx] at hb
                simpa using hb
              obtain ⟨hres, hall⟩ := ih (s + 1) (acc ++ posts) j b e hjr hb' he
              constructor
              · simpa [runBatchesT, hpb, hlen] using hres
              · intro j' hj'mem
                have hj'' : j' = s ∨ j' ∈ (runBatchesT env (s + 1) rest (acc ++ posts)).1 := by
                  simpa [runBatchesT, hpb, hlen] using hj'mem
                rcases hj'' with rfl | hmem
                · omega
                · exact hall j' hmem

/-- **C1.** In auto-selection mode, whatever the model responses, a successful
run returns at most 5 posts: the accumulated list is truncated to 5 before
returning. -/
theorem generateInstagramCaptions_cap (env : Env) (configured : Bool)
    (emails : List Email) (posts : List Post)
    (h : generateInstagramCaptions env configured emails = .ok posts) :
    posts.length ≤ 5 := by
  cases configured with
  | false => simp [generateInstagramCaptions, generateInstagramCaptionsT] at h
  | true =>
      by_cases hemp : emails.length = 0
      · have hh : generateInstagramCaptions env true emails = .ok [] := by
          simp [generateInstagramCaptions, generateInstagramCaptionsT, hemp]
        rw [hh] at h
        injection h with h
        simp [← h]
      · have hh : generateInstagramCaptions env true emails =
            ((runBatchesT env 0 (autoBatches emails) []).2).map
              (fun allPosts => allPosts.take 5) := by
          simp [generateInstagramCaptions, generateInstagramCaptionsT, hemp]
        rw [hh] at h
        cases hr : (runBatchesT env 0 (autoBatches emails) []).2 with
        | error e =>
            rw [hr] at h
            simp [Except.map] at h
        | ok allPosts =>
            rw [hr] at h
            simp only [Except.map, Except.ok.injEq] at h
            rw [← h]
            simp only [List.length_take]
            omega

/-- **C2.** In auto-selection mode, once the accumulator of validated posts
has reached 3 or more after some batch `i`, no later batch is processed: every
batch index for which the generation client is invoked is at most `i`. -/
theorem generateInstagramCaptions_early_stop (env : Env) (configured : Bool)
    (emails : List Email) (i : Nat)
    (hacc : 3 ≤ (accState env 0 (autoBatches emails) [] (i + 1)).length) :
    ∀ j ∈ (generateInstagramCaptionsT env configured emails).1, j ≤ i := by
  intro j hj
  cases configured with
  | false => simp [generateInstagramCaptionsT] at hj
  | true =>
      by_cases hemp : emails.length = 0
      · simp [generateInstagramCaptionsT, hemp] at hj
      · have hj' : j ∈ (runBatchesT env 0 (autoBatches emails) []).1 := by
          simpa [generateInstagramCaptionsT, hemp] using hj
        have := runBatchesT_stop env (autoBatches emails) 0 [] (i + 1)
          (by simp) hacc j hj'
        omega

/-- **C7.** In auto-selection mode, if the batch at some invoked index fails
fatally, the whole run returns exactly that error (so no accumulated posts
are returned) and no batch after the failing one is invoked. -/
theorem generateInstagramCaptions_fatal_abort (env : Env) (configured : Bool)
    (emails : List Email) (j : Nat) (b : List ImageRef) (e : PipelineError)
    (hj : j ∈ (generateInstagramCaptionsT env configured emails).1)
    (hb : (autoBatches emails).get? j = some b)
    (he : processBatch env j b = .error e) :
    generateInstagramCaptions env configured emails = .error e ∧
    ∀ j' ∈ (generateInstagramCaptionsT env configured emails).1, j' ≤ j := by
  cases configured with
  | false => simp [generateInstagramCaptionsT] at hj
  | true =>
      by_cases hemp : emails.length = 0
      · simp [generateInstagramCaptionsT, hemp] at hj
      · have hj' : j ∈ (runBatchesT env 0 (autoBatches emails) []).1 := by
          simpa [generateInstagramCaptionsT, hemp] using hj
        have hb' : (autoBatches emails).get? (j - 0) = some b := by simpa using hb
        obtain ⟨hres, hall⟩ :=
          runBatchesT_fatal env (autoBatches emails) 0 [] j b e hj' hb' he
        constructor
        · simp [generateInstagramCaptions, generateInstagramCaptionsT, hemp, hres, Except.map]
        · intro j' hj'mem
          have : j' ∈ (runBatchesT env 0 (autoBatches emails) []).1 := by
            simpa [generateInstagramCaptionsT, hemp] using hj'mem
          exact hall j' this

/-! Concrete environments and inputs for the witnesses. -/

def clientOk : Nat → List ContentBlock → Nat → AttemptResult := fun _ _ _ => .ok "sel"

def parseThree : String → SelParse :=
  fun _ => .parsed (some [⟨0, "c1"⟩, ⟨0, "c2"⟩, ⟨0, "c3"⟩])

def envOk : Env :=
  { now := "2025-01-01T00:00:00Z", dateStr := "2025-01-01", resolve := resolveFailAll,
    client := clientOk, parse := parseThree }

def email1 : Email :=
  { id := "e1", subject := none, sender := none, textContent := none,
    imageUrls := ["http://x/a.png"] }

def clientErr : Nat → List ContentBlock → Nat → AttemptResult := fun _ _ _ => .err 500 "boom"

def envErr : Env :=
  { now := "2025-01-01T00:00:00Z", dateStr := "2025-01-01", resolve := resolveFailAll,
    client := clientErr, parse := parseThree }

theorem generateInstagramCaptions_cap_witness : ([] : List Post).length ≤ 5 :=
  generateInstagramCaptions_cap envOk true [] [] rfl

theorem generateInstagramCaptions_early_stop_witness :
    (generateInstagramCaptionsT envOk true [email1]).1.all (fun j => decide (j ≤ 0)) = true := by
  have h := generateInstagramCaptions_early_stop envOk true [email1] 0 (by decide)
  exact List.all_eq_true.mpr (fun j hj => decide_eq_true (h j hj))

theorem generateInstagramCaptions_fatal_abort_witness :
    generateInstagramCaptions envErr true [email1] =
      .error (.generationError 500 "boom") ∧
    (generateInstagramCaptionsT envErr true [email1]).1.all (fun j => decide (j ≤ 0)) = true := by
  obtain ⟨h1, h2⟩ := generateInstagramCaptions_fatal_abort envErr true [email1] 0
    [{ imageUrl := "http://x/a.png", emailId := "e1", subject := none, sender := none,
       textContent := none }]
    (.generationError 500 "boom") (by decide) (by decide) (by rfl)
  exact ⟨h1, List.all_eq_true.mpr (fun j hj => decide_eq_true (h2 j hj))⟩


/-! ## Combined mode (`generateCombinedPost`) -/

/-- Outcome of parsing the combined-mode response text: a JSON parse error, or
a parsed object whose `caption` field is missing (`none`) or a string.  The
source treats a missing caption and an empty-string caption alike
(`if (!parsed.caption)`). -/
inductive CombinedParse
  | parseError
  | parsed (caption : Option String)
deriving DecidableEq, Repr

/-- Observable side effects of one `generateCombinedPost` call: whether the
request content was built, for how many images resolution was attempted, and
how many generation-client attempts were made (0 = no network call). -/
structure CombinedTrace where
  contentBuilt : Bool
  imagesResolved : Nat
  clientAttempts : Nat
deriving DecidableEq, Repr

/-- `generateCombinedPost({images, date})` (lines 140-313), instrumented with
a `CombinedTrace`: configuration check; `!images || images.length === 0`
throws `No images provided`; `images.length > 5` throws
`Maximum 5 images can be selected` — all three before content building, image
resolution or any client call.  Otherwise build the combined request, run the
client under the retry loop, parse, require a non-empty caption, and assemble
the single post from the first image. -/
def generateCombinedPostT (configured : Bool) (now dateStr : String)
    (resolve : String → ResolveResult)
    (client : List ContentBlock → Nat → AttemptResult)
    (parse : String → CombinedParse)
    (images : Option (List ImageRef)) : CombinedTrace × Except PipelineError Post :=
  if configured then
    match images with
    | none => (⟨false, 0, 0⟩, .error .noImages)
    | some [] => (⟨false, 0, 0⟩, .error .noImages)
    | some (first :: rest) =>
        if 5 < (first :: rest).length then (⟨false, 0, 0⟩, .error .tooManyImages)
        else
          let imgs := first :: rest
          let contentBlocks := combinedContent resolve imgs dateStr
          match retryLoop (client contentBlocks) with
          | .failure n _ status msg =>
              (⟨true, imgs.length, n⟩, .error (.generationError status msg))
          | .success n _ text =>
              match parse text with
              | .parseError => (⟨true, imgs.length, n⟩, .error .captionParseFailed)
              | .parsed none => (⟨true, imgs.length, n⟩, .error .captionParseFailed)
              | .parsed (some caption) =>
                  if caption = "" then
                    (⟨true, imgs.length, n⟩, .error .captionParseFailed)
                  else
                    let imageUrls := (imgs.map (fun img => img.imageUrl)).filter
                      (fun u => decide (u ≠ ""))
                    (⟨true, imgs.length, n⟩, .ok
                      { caption_text := caption
                        email_id := first.emailId
                        source_image_url := first.imageUrl
                        source_image_urls :=
                          if 0 < imageUrls.length then some imageUrls else none
                        created_at := now })
  else (⟨false, 0, 0⟩, .error .notConfigured)

def generateCombinedPost (configured : Bool) (now dateStr : String)
    (resolve : String → ResolveResult)
    (client : List ContentBlock → Nat → AttemptResult)
    (parse : String → CombinedParse)
    (images : Option (List ImageRef)) : Except PipelineError Post :=
  (generateCombinedPostT configured now dateStr resolve client parse images).2

/-- **C9.** Combined mode with more than 5 images fails immediately with the
too-many-images error: no content is built, no image is resolved and the
generation client is never invoked (trace `⟨false, 0, 0⟩`), whatever the
oracles. -/
theorem generateCombinedPost_too_many (now dateStr : String)
    (resolve : String → ResolveResult)
    (client : List ContentBlock → Nat → AttemptResult)
    (parse : String → CombinedParse) (images : List ImageRef)
    (h : 5 < images.length) :
    generateCombinedPostT true now dateStr resolve client parse (some images) =
      (⟨false, 0, 0⟩, .error .tooManyImages) := by
  cases images with
  | nil => simp at h
  | cons first rest =>
      simp only [generateCombinedPostT, if_pos h, if_true]

/-- Sending 6 images to combined mode is rejected with `tooManyImages` and a
trace showing no building, no resolution and no client call. -/
theorem generateCombinedPost_too_many_witness :
    generateCombinedPostT true "2025-01-01T00:00:00Z" "2025-01-01" resolveFailAll
      (fun _ _ => .ok "") (fun _ => .parseError) (some (List.replicate 6 cimg)) =
      (⟨false, 0, 0⟩, .error .tooManyImages) :=
  generateCombinedPost_too_many "2025-01-01T00:00:00Z" "2025-01-01" resolveFailAll
    (fun _ _ => .ok "") (fun _ => .parseError) (List.replicate 6 cimg) (by decide)

/-- **C10.** Combined mode with a missing (`none`) or empty images list fails
with the no-images error before building any content, resolving any image or
making any client call (trace `⟨false, 0, 0⟩`), whatever the oracles. -/
theorem generateCombinedPost_no_images (now dateStr : String)
    (resolve : String → ResolveResult)
    (client : List ContentBlock → Nat → AttemptResult)
    (parse : String → CombinedParse) :
    generateCombinedPostT true now dateStr resolve client parse none =
      (⟨false, 0, 0⟩, .error .noImages) ∧
    generateCombinedPostT true now dateStr resolve client parse (some []) =
      (⟨false, 0, 0⟩, .error .noImages) := ⟨rfl, rfl⟩


end Postforge
